import Mathlib

/-!
Shallow embedding of `src/function_app.py` from the mta-notifications
repository. The feed is a loosely typed JSON structure; the Python code
accesses it only through `dict.get` with defaults, so each dictionary is
modelled as a structure whose every field is an `Option` (a missing key),
and each `.get(key, default)` becomes an `Option` projection followed by
`getD default`. Machine I/O (HTTP fetch, the Azure email client, `os.environ`,
`datetime.now`, `logging`) is modelled by explicit parameters and by an
explicit run-result record.
-/

namespace MtaNotify

/-- One element of a `translation` array: a JSON object with optional
`language` and `text` keys. -/
structure Translation where
  language : Option String
  text : Option String
deriving DecidableEq

/-- A localized text object (`header_text` or `human_readable_active_period`):
a JSON object with an optional `translation` array. -/
structure LocalizedText where
  translation : Option (List Translation)
deriving DecidableEq

/-- The vendor extension object stored under the key
`transit_realtime.mercury_alert` inside an alert. -/
structure MercuryAlert where
  human_readable_active_period : Option LocalizedText
deriving DecidableEq

/-- The vendor selector object stored under the key
`transit_realtime.mercury_entity_selector` inside an informed entity,
with its optional `sort_order` string. -/
structure MercuryEntitySelector where
  sort_order : Option String
deriving DecidableEq

/-- One element of an alert's `informed_entity` array. -/
structure InformedEntity where
  mercury_entity_selector : Option MercuryEntitySelector
deriving DecidableEq

/-- An `alert` object: optional `header_text`, optional `informed_entity`
array, and the optional `transit_realtime.mercury_alert` extension
(field named `mercury_alert` here because Lean identifiers cannot
contain a dot). -/
structure Alert where
  header_text : Option LocalizedText
  informed_entity : Option (List InformedEntity)
  mercury_alert : Option MercuryAlert
deriving DecidableEq

/-- One element of the feed's top-level `entity` array, wrapping an
optional `alert` object. -/
structure Entity where
  alert : Option Alert
deriving DecidableEq

/-- The root feed object returned by the MTA endpoint, with its optional
`entity` array. -/
structure Feed where
  entity : Option (List Entity)
deriving DecidableEq

/-- Embedding of `informed_entity.get('transit_realtime.mercury_entity_selector', {}).get('sort_order', '')`
(function_app.py lines 70-71): a missing selector object or a missing
`sort_order` key both yield the empty string. -/
def sortOrderOf (ie : InformedEntity) : String :=
  (ie.mercury_entity_selector.bind MercuryEntitySelector.sort_order).getD ""

/-- Embedding of `entity.get('alert', {}).get('informed_entity', [])`
(function_app.py lines 60-63). -/
def informedEntitiesOf (e : Entity) : List InformedEntity :=
  (e.alert.bind Alert.informed_entity).getD []

/-- The hard-coded match constant of function_app.py line 74. -/
def matchSortOrder : String := "MTASBWY:7:20"

/-- The inner `for informed_entity in informed_entities: ... if sort_order == 'MTASBWY:7:20': append; break`
loop of function_app.py lines 68-76: the entity is kept exactly when some
informed entity's selector sort order equals the constant, and the scan
stops at the first match (`List.any` short-circuits like the `break`). -/
def entityMatches (entity : Entity) : Bool :=
  (informedEntitiesOf entity).any (fun ie => sortOrderOf ie == matchSortOrder)

/-- Embedding of `filter_seven_train_alerts` (function_app.py lines 40-78):
`alerts_data.get('entity', [])` scanned in order, each matching entity
appended once to the result. -/
def filter_seven_train_alerts (alerts_data : Feed) : List Entity :=
  (alerts_data.entity.getD []).filter entityMatches

/-- The `for translation in translations: if translation.get('language') == 'en': take text; break`
loop shared by both halves of `get_alert_details` (function_app.py
lines 25-28 and 33-36). On the first translation whose `language` is
`"en"` it returns that translation's (optional) `text` and stops. -/
def firstEnText : List Translation → Option String
  | [] => none
  | t :: ts => if t.language == some "en" then t.text else firstEnText ts

/-- Embedding of `alert.get('alert', {}).get('header_text', {}).get('translation', [])`
(function_app.py lines 21-24). -/
def headerTranslations (entity : Entity) : List Translation :=
  ((entity.alert.bind Alert.header_text).bind LocalizedText.translation).getD []

/-- Embedding of the active-period path
`alert.get('transit_realtime.mercury_alert', {}).get('human_readable_active_period', {}).get('translation', [])`
(function_app.py lines 31-32). -/
def periodTranslations (entity : Entity) : List Translation :=
  (((entity.alert.bind Alert.mercury_alert).bind
      MercuryAlert.human_readable_active_period).bind
    LocalizedText.translation).getD []

/-- Embedding of `get_alert_details` (function_app.py lines 8-38):
returns the pair `(header_text, active_period_text)`, each `none` when
its loop finds no `"en"` translation. -/
def get_alert_details (entity : Entity) : Option String × Option String :=
  (firstEnText (headerTranslations entity), firstEnText (periodTranslations entity))

/-- The detail-collection loop of `mta_alert_check` (function_app.py
lines 183-190): for each filtered entity, extract details and keep the
pair only when `if header_text and active_period:` holds under Python
truthiness, i.e. when both components are present (`some`) AND nonempty
(for a Python string `s`, `bool(s)` is `s != ""`). -/
def alert_details (alerts_data : Feed) : List (String × String) :=
  (filter_seven_train_alerts alerts_data).filterMap (fun alert =>
    match get_alert_details alert with
    | (some h, some p) => if h ≠ "" ∧ p ≠ "" then some (h, p) else none
    | _ => none)

/-- The separator line `"-" * 50` of function_app.py line 108. -/
def separatorLine : String := String.mk (List.replicate 50 '-')

/-- The `plain_text_alerts` accumulation loop of `send_alert_email`
(function_app.py lines 100-109): for each `(header, period)` pair, in
order, extend the line list with the alert line, the active-period line
and the separator line. -/
def plain_text_alerts (alerts : List (String × String)) : List String :=
  alerts.foldl
    (fun acc hp =>
      acc ++ ["Alert: " ++ hp.1, "Active Period: " ++ hp.2, separatorLine])
    []

/-- One block of the `html_alerts` accumulation loop of `send_alert_email`
(function_app.py lines 112-118). -/
def htmlAlertBlock (header period : String) : String :=
  "\n            <div style=\"margin-bottom: 20px;\">\n                <p><strong>"
    ++ header
    ++ "</strong></p>\n                <p>Active Period: "
    ++ period
    ++ "</p>\n                <hr/>\n            </div>\n        "

/-- The `html_alerts` accumulation loop of `send_alert_email`
(function_app.py lines 100-118). -/
def html_alerts (alerts : List (String × String)) : List String :=
  alerts.foldl (fun acc hp => acc ++ [htmlAlertBlock hp.1 hp.2]) []

/-- The `content` part of the message dictionary of function_app.py
lines 120-134. -/
structure EmailContent where
  subject : String
  plainText : String
  html : String
deriving DecidableEq

/-- One entry of `recipients.to` in the message dictionary
(function_app.py lines 136-141); the address comes from
`os.environ.get('EMAIL_RECIPIENT')` and so may be missing. -/
structure EmailRecipient where
  address : Option String
  displayName : String
deriving DecidableEq

/-- The message dictionary built by `send_alert_email`
(function_app.py lines 120-144). -/
structure EmailMessage where
  content : EmailContent
  recipients_to : List EmailRecipient
  senderAddress : Option String
deriving DecidableEq

/-- The fixed HTML shell around the alert blocks
(function_app.py lines 124-133). -/
def htmlBody (blocks : List String) (nowSecond : String) : String :=
  "\n                <html>\n                    <body>\n                        <h2>7 Train Service Alerts</h2>\n                        <p>The following service changes are currently in effect:</p>\n                        "
    ++ String.join blocks
    ++ "\n                        <p>This message was automatically generated at "
    ++ nowSecond
    ++ "</p>\n                    </body>\n                </html>\n            "

/-- Embedding of `send_alert_email` (function_app.py lines 80-151).
The environment reads `os.environ.get('EMAIL_SENDER')` /
`os.environ.get('EMAIL_RECIPIENT')` become the `sender` / `recipient`
parameters, the two `datetime.now().strftime(...)` calls become the
`nowMinute` / `nowSecond` parameters, and the Azure client becomes the
returned value: `none` models the early `if not alerts: return` (line
97-98, no message is constructed or sent), `some m` models handing the
message dictionary `m` to `email_client.begin_send`. -/
def send_alert_email (sender recipient : Option String)
    (nowMinute nowSecond : String) (alerts : List (String × String)) :
    Option EmailMessage :=
  if alerts.isEmpty then none
  else
    some
      { content :=
          { subject := "7 Train Service Alert Summary - " ++ nowMinute
            plainText := String.intercalate "\n" (plain_text_alerts alerts)
            html := htmlBody (html_alerts alerts) nowSecond }
        recipients_to := [{ address := recipient, displayName := "MTA Alert Subscriber" }]
        senderAddress := sender }

/-- The environment variables consumed by the app: `os.environ.get` keys
may be absent, and `os.environ["EMAIL_CONNECTION_STRING"]`
(function_app.py line 168) raises `KeyError` when its key is absent. -/
structure Env where
  email_connection_string : Option String
  email_sender : Option String
  email_recipient : Option String
deriving DecidableEq

/-- Outcome of `requests.get(url)`, `response.raise_for_status()` and
`response.json()` (function_app.py lines 176-178): success with a parsed
feed, a `requests.exceptions.RequestException` (network/timeout/non-2xx),
or a `ValueError` from JSON parsing. -/
inductive FetchOutcome where
  | success (feed : Feed)
  | requestError (msg : String)
  | parseError (msg : String)
deriving DecidableEq

/-- Observable result of one run of `mta_alert_check`: the log lines
emitted in order, the email message handed to the notifier (`none` when
no email is sent), the filtered entities and extracted detail pairs
computed inside the run, and `escaped = some e` exactly when an
exception `e` propagates out of the function uncaught. -/
structure RunResult where
  logs : List String
  email : Option EmailMessage
  filtered : List Entity
  details : List (String × String)
  escaped : Option String
deriving DecidableEq

/-- Embedding of one invocation of `mta_alert_check` (function_app.py
lines 160-205). Timestamps are parameters (`utcStart`/`utcEnd` for the
two UTC log lines, `nowMinute`/`nowSecond` for the email). Line 168
`os.environ["EMAIL_CONNECTION_STRING"]` sits BEFORE the `try` block, so
a missing key raises a `KeyError` that escapes the run; inside the
`try`, a fetch error or parse error is caught by the matching `except`
clause (lines 198-201), logged, and the run falls through to the final
completion log with no email sent. -/
def mta_alert_check (env : Env) (utcStart nowMinute nowSecond utcEnd : String)
    (fetch : FetchOutcome) : RunResult :=
  let startLogs := ["Alert check starting at: " ++ utcStart]
  match env.email_connection_string with
  | none =>
      { logs := startLogs
        email := none
        filtered := []
        details := []
        escaped := some "KeyError: EMAIL_CONNECTION_STRING" }
  | some _ =>
      let fetchLog := "Fetching alerts from MTA..."
      match fetch with
      | FetchOutcome.requestError m =>
          { logs := startLogs ++ [fetchLog, "Failed to fetch alerts: " ++ m,
              "Alert check completed at: " ++ utcEnd]
            email := none
            filtered := []
            details := []
            escaped := none }
      | FetchOutcome.parseError m =>
          { logs := startLogs ++ [fetchLog, "Failed to parse JSON response: " ++ m,
              "Alert check completed at: " ++ utcEnd]
            email := none
            filtered := []
            details := []
            escaped := none }
      | FetchOutcome.success feed =>
          let seven := filter_seven_train_alerts feed
          let n := seven.length
          let ds := alert_details feed
          let detailLogs := ds.flatMap
            (fun hp => ["Alert: " ++ hp.1, "Active Period: " ++ hp.2, "---"])
          let email :=
            if ds.isEmpty then none
            else send_alert_email env.email_sender env.email_recipient
              nowMinute nowSecond ds.reverse
          let sentLog := if ds.isEmpty then [] else ["Summary email notification sent."]
          { logs := startLogs ++ [fetchLog, "Found " ++ toString n ++ " alerts for the 7 train."]
              ++ detailLogs ++ sentLog ++ ["Alert check completed at: " ++ utcEnd]
            email := email
            filtered := seven
            details := ds
            escaped := none }

/-! ## Concrete fixtures used by witnesses and counterexamples -/

/-- A translation tagged `"en"` with the given text. -/
def enTranslation (txt : String) : Translation :=
  { language := some "en", text := some txt }

/-- An informed entity whose selector sort order is the 7-train constant. -/
def matchingIE : InformedEntity :=
  { mercury_entity_selector := some { sort_order := some matchSortOrder } }

/-- An entity with a matching informed entity, English header text `h`
and English active-period text `p`. -/
def mkEntity (h p : String) : Entity :=
  { alert := some
      { header_text := some { translation := some [enTranslation h] }
        informed_entity := some [matchingIE]
        mercury_alert := some
          { human_readable_active_period :=
              some { translation := some [enTranslation p] } } } }

/-- A feed with two matching entities, in feed order `A` then `B`. -/
def feedTwo : Feed :=
  { entity := some [mkEntity "A" "P1", mkEntity "B" "P2"] }

/-- An environment in which every variable is set. -/
def envFull : Env :=
  { email_connection_string := some "cs"
    email_sender := some "sender@example.com"
    email_recipient := some "recipient@example.com" }

/-- An environment with no variables set at all; in particular
`EMAIL_CONNECTION_STRING` is absent. -/
def envMissing : Env :=
  { email_connection_string := none, email_sender := none, email_recipient := none }

/-- A second environment, differing from `envFull` in every field, used
to compare two runs over the same feed. -/
def envAlt : Env :=
  { email_connection_string := some "cs2"
    email_sender := none
    email_recipient := none }

/-- A matching entity whose English header text is the EMPTY string while
its English active-period text is nonempty: both extracted fields are
present (`some`), but Python truthiness drops the pair. -/
def emptyHeaderEntity : Entity :=
  { alert := some
      { header_text := some { translation := some [enTranslation ""] }
        informed_entity := some [matchingIE]
        mercury_alert := some
          { human_readable_active_period :=
              some { translation := some [enTranslation "period"] } } } }

/-- A feed containing only `emptyHeaderEntity`. -/
def emptyHeaderFeed : Feed := { entity := some [emptyHeaderEntity] }

/-! ## Helper lemmas -/

/-- Folding list-append of generated blocks from the empty accumulator is
`flatMap`. -/
theorem foldl_append_eq_flatMap {α β : Type} (g : α → List β) :
    ∀ (l : List α) (acc : List β),
      l.foldl (fun a x => a ++ g x) acc = acc ++ l.flatMap g := by
  intro l
  induction l with
  | nil => intro acc; simp
  | cons x xs ih => intro acc; simp [ih, List.flatMap_cons]

/-- The plain-text accumulation loop produces, for each detail in order,
exactly its three lines. -/
theorem plain_text_alerts_eq_flatMap (alerts : List (String × String)) :
    plain_text_alerts alerts =
      alerts.flatMap
        (fun hp => ["Alert: " ++ hp.1, "Active Period: " ++ hp.2, separatorLine]) := by
  simpa [plain_text_alerts] using
    foldl_append_eq_flatMap
      (fun hp : String × String =>
        ["Alert: " ++ hp.1, "Active Period: " ++ hp.2, separatorLine])
      alerts []

/-- The first-match loop over translations is `find?` followed by the
`text` projection. -/
theorem firstEnText_eq_find (ts : List Translation) :
    firstEnText ts =
      (ts.find? (fun t => t.language == some "en")).bind Translation.text := by
  induction ts with
  | nil => rfl
  | cons t ts ih =>
      by_cases h : t.language = some "en"
      · simp [firstEnText, h]
      · simp [firstEnText, h, ih]

/-! ## Claim theorems -/

/-- C1: for every feed, `filter_seven_train_alerts` returns exactly those
entities having at least one informed entity whose mercury selector sort
order equals `"MTASBWY:7:20"`; each matching entity occurs in the result
exactly as often as in the feed (once per feed occurrence, regardless of
how many of its informed entities match, the scan stopping at the first
match), and the result is a sublist of the feed's entity array, so the
original feed order is preserved. -/
theorem filter_seven_train_alerts_spec (feed : Feed) :
    (∀ e : Entity,
        e ∈ filter_seven_train_alerts feed ↔
          e ∈ feed.entity.getD [] ∧
            ∃ ie ∈ informedEntitiesOf e, sortOrderOf ie = matchSortOrder)
    ∧ (∀ e : Entity,
        (filter_seven_train_alerts feed).count e =
          if entityMatches e then (feed.entity.getD []).count e else 0)
    ∧ (filter_seven_train_alerts feed).Sublist (feed.entity.getD []) := by
  refine ⟨fun e => ?_, fun e => ?_, List.filter_sublist _⟩
  · simp [filter_seven_train_alerts, List.mem_filter, entityMatches,
      List.any_eq_true]
  · by_cases h : entityMatches e
    · simp only [h, if_true, filter_seven_train_alerts]
      exact List.count_filter h
    · simp only [h, if_false]
      refine List.count_eq_zero.2 (fun hmem => ?_)
      exact h ((List.mem_filter.1 hmem).2)

/-- C2: for every entity, `get_alert_details` returns in its first
component the (optional) text of the first `"en"` translation of
`entity.alert.header_text.translation`, and in its second component the
text of the first `"en"` translation of
`entity.alert.'transit_realtime.mercury_alert'.human_readable_active_period.translation`
(`find?` keeps the first match, so duplicated later `"en"` entries are
ignored, and yields `none` when no `"en"` entry exists); both path
helpers default missing levels to the empty list, and a missing `alert`
yields `(none, none)`. -/
theorem get_alert_details_spec (entity : Entity) :
    (get_alert_details entity).1 =
      ((headerTranslations entity).find?
          (fun t => t.language == some "en")).bind Translation.text
    ∧ (get_alert_details entity).2 =
      ((periodTranslations entity).find?
          (fun t => t.language == some "en")).bind Translation.text
    ∧ get_alert_details { alert := none } = (none, none) := by
  exact ⟨firstEnText_eq_find _, firstEnText_eq_find _, rfl⟩

/-- C7: missing pieces of the feed structure are treated as "no match"
and never as an error: a feed with a missing or empty `entity` array
filters to the empty list, an entity with no `alert` never matches (and
is in no filter output), an alert with no `informed_entity` array never
matches, and a missing selector object yields the empty sort order,
which is never equal to the match constant. -/
theorem filter_seven_train_alerts_missing_safe :
    filter_seven_train_alerts { entity := none } = []
    ∧ filter_seven_train_alerts { entity := some [] } = []
    ∧ (∀ e : Entity, e.alert = none → entityMatches e = false)
    ∧ (∀ a : Alert, a.informed_entity = none →
        entityMatches { alert := some a } = false)
    ∧ (∀ ie : InformedEntity,
        ie.mercury_entity_selector = none →
          sortOrderOf ie = "" ∧ sortOrderOf ie ≠ matchSortOrder)
    ∧ (∀ (feed : Feed) (e : Entity),
        e.alert = none → e ∉ filter_seven_train_alerts feed) := by
  refine ⟨rfl, rfl, fun e h => ?_, fun a h => ?_, fun ie h => ?_,
    fun feed e h hmem => ?_⟩
  · simp [entityMatches, informedEntitiesOf, h]
  · simp [entityMatches, informedEntitiesOf, h]
  · constructor
    · simp [sortOrderOf, h]
    · simp [sortOrderOf, h, matchSortOrder]
  · have hm := (List.mem_filter.1 hmem).2
    simp [entityMatches, informedEntitiesOf, h] at hm

/-- C7 witness: the missing-field safety facts evaluated at concrete
inputs: the entity-free feed, an alert-free entity and a selector-free
informed entity. -/
theorem filter_seven_train_alerts_missing_safe_witness :
    filter_seven_train_alerts { entity := none } = []
    ∧ entityMatches { alert := none } = false
    ∧ sortOrderOf { mercury_entity_selector := none } = "" :=
  ⟨filter_seven_train_alerts_missing_safe.1,
    filter_seven_train_alerts_missing_safe.2.2.1 { alert := none } rfl,
    (filter_seven_train_alerts_missing_safe.2.2.2.2.1
        { mercury_entity_selector := none } rfl).1⟩

/-- C3 counterexample: in `emptyHeaderFeed`, the single entity passes the
filter and BOTH extracted fields are present (`isSome`), the header being
`some ""`; yet the pair is NOT forwarded (the forwarded list is empty),
because line 186 `if header_text and active_period:` uses Python
truthiness, under which the empty string is falsy. So "forwarded if and
only if both fields are present" is false on this input. -/
theorem alert_details_present_not_forwarded :
    emptyHeaderEntity ∈ filter_seven_train_alerts emptyHeaderFeed
    ∧ (get_alert_details emptyHeaderEntity).1.isSome = true
    ∧ (get_alert_details emptyHeaderEntity).2.isSome = true
    ∧ alert_details emptyHeaderFeed = [] := by
  refine ⟨?_, rfl, rfl, ?_⟩ <;> decide

/-- C3 amended: a pair is forwarded to the formatter if and only if it
comes from a filtered entity BOTH of whose extracted fields are present
AND nonempty (Python truthiness of line 186); in particular the
formatter never receives a pair with a missing or empty field. -/
theorem alert_details_mem (feed : Feed) (h p : String) :
    (h, p) ∈ alert_details feed ↔
      ∃ e, e ∈ filter_seven_train_alerts feed ∧
        get_alert_details e = (some h, some p) ∧ h ≠ "" ∧ p ≠ "" := by
  rw [alert_details, List.mem_filterMap]
  refine exists_congr (fun e => and_congr_right (fun _ => ?_))
  rcases hd : get_alert_details e with ⟨d1, d2⟩
  cases d1 with
  | none => simp
  | some a =>
    cases d2 with
    | none => simp
    | some b =>
      show (if a ≠ "" ∧ b ≠ "" then some (a, b) else none) = some (h, p) ↔
        (some a, some b) = (some h, some p) ∧ h ≠ "" ∧ p ≠ ""
      by_cases hab : a ≠ "" ∧ b ≠ ""
      · rw [if_pos hab]
        simp only [Option.some.injEq, Prod.mk.injEq]
        constructor
        · rintro ⟨rfl, rfl⟩
          exact ⟨⟨rfl, rfl⟩, hab.1, hab.2⟩
        · rintro ⟨⟨rfl, rfl⟩, _, _⟩
          exact ⟨rfl, rfl⟩
      · rw [if_neg hab]
        simp only [Prod.mk.injEq, Option.some.injEq]
        constructor
        · intro hfalse
          exact absurd hfalse (by simp)
        · rintro ⟨⟨rfl, rfl⟩, hh, hp2⟩
          exact absurd ⟨hh, hp2⟩ hab

/-- C10: called on an empty alert list, `send_alert_email` returns
immediately without constructing any message, for every environment and
timestamp. -/
theorem send_alert_email_empty (sender recipient : Option String)
    (nowMinute nowSecond : String) :
    send_alert_email sender recipient nowMinute nowSecond [] = none := rfl

/-- The plain-text line loop distributes over list append. -/
theorem plain_text_alerts_append (l₁ l₂ : List (String × String)) :
    plain_text_alerts (l₁ ++ l₂) = plain_text_alerts l₁ ++ plain_text_alerts l₂ := by
  simp [plain_text_alerts_eq_flatMap]

/-- C4: when the run succeeds and yields at least two complete detail
pairs, line 193 `alert_details.reverse()` reverses the feed-order detail
list before handing it to `send_alert_email`, so the message's
plain-text body lists the FIRST-detected pair `hp0` LAST: the body is
the lines for the remaining pairs (in reversed order) followed by the
three lines of `hp0`. -/
theorem mta_alert_check_reverses_order (env : Env)
    (cs uS nM nS uE : String) (feed : Feed) (hp0 : String × String)
    (rest : List (String × String))
    (hc : env.email_connection_string = some cs)
    (hd : alert_details feed = hp0 :: rest) (_hne : rest ≠ []) :
    (mta_alert_check env uS nM nS uE (FetchOutcome.success feed)).email =
      send_alert_email env.email_sender env.email_recipient nM nS
        ((hp0 :: rest).reverse)
    ∧ ∃ m,
        (mta_alert_check env uS nM nS uE (FetchOutcome.success feed)).email
            = some m
          ∧ m.content.plainText =
              String.intercalate "\n"
                (plain_text_alerts rest.reverse ++
                  ["Alert: " ++ hp0.1, "Active Period: " ++ hp0.2,
                    separatorLine]) := by
  have hmail :
      (mta_alert_check env uS nM nS uE (FetchOutcome.success feed)).email =
        send_alert_email env.email_sender env.email_recipient nM nS
          ((hp0 :: rest).reverse) := by
    simp [mta_alert_check, hc, hd]
  refine ⟨hmail, ?_⟩
  rw [hmail, send_alert_email]
  have hrevne : ((hp0 :: rest).reverse).isEmpty = false := by simp
  rw [hrevne]
  simp only [Bool.false_eq_true, if_false]
  refine ⟨_, rfl, ?_⟩
  have hsplit : (hp0 :: rest).reverse = rest.reverse ++ [hp0] := by simp
  rw [hsplit, plain_text_alerts_append]
  have hsingle : plain_text_alerts [hp0] =
      ["Alert: " ++ hp0.1, "Active Period: " ++ hp0.2, separatorLine] := by
    simp [plain_text_alerts_eq_flatMap]
  rw [hsingle]

/-- C4 witness: on the two-alert feed `feedTwo` (feed order `A` then
`B`), the sent body lists `B` first and the first-detected `A` last. -/
theorem mta_alert_check_reverses_order_witness :
    ∃ m,
      (mta_alert_check envFull "t0" "tM" "tS" "t1"
            (FetchOutcome.success feedTwo)).email = some m
        ∧ m.content.plainText =
            String.intercalate "\n"
              (plain_text_alerts ([("B", "P2")].reverse) ++
                ["Alert: " ++ ("A", "P1").1,
                  "Active Period: " ++ ("A", "P1").2, separatorLine]) :=
  (mta_alert_check_reverses_order envFull "cs" "t0" "tM" "tS" "t1" feedTwo
      ("A", "P1") [("B", "P2")] rfl (by decide) (by decide)).2

/-- C5: when a successful run extracts zero complete detail pairs, the
guard at line 192 `if alert_details:` fails, so `send_alert_email` is
never invoked and no email is sent. -/
theorem mta_alert_check_no_details_no_email (env : Env)
    (cs uS nM nS uE : String) (feed : Feed)
    (hc : env.email_connection_string = some cs)
    (hd : alert_details feed = []) :
    (mta_alert_check env uS nM nS uE (FetchOutcome.success feed)).email = none
    ∧ (mta_alert_check env uS nM nS uE (FetchOutcome.success feed)).details
        = [] := by
  simp [mta_alert_check, hc, hd]

/-- C5 witness: the entity-free feed yields zero detail pairs and no
email. -/
theorem mta_alert_check_no_details_no_email_witness :
    (mta_alert_check envFull "t0" "tM" "tS" "t1"
        (FetchOutcome.success { entity := none })).email = none
    ∧ (mta_alert_check envFull "t0" "tM" "tS" "t1"
        (FetchOutcome.success { entity := none })).details = [] :=
  mta_alert_check_no_details_no_email envFull "cs" "t0" "tM" "tS" "t1"
    { entity := none } rfl rfl

/-- C6 counterexample: `os.environ["EMAIL_CONNECTION_STRING"]` at
function_app.py line 168 sits BEFORE the `try` block, so when that
variable is absent the run raises a `KeyError` that no handler catches:
an exception escapes this concrete run, refuting "every error raised
inside a run is caught at the outermost boundary of the run and no
exception escapes". -/
theorem mta_alert_check_escaping_exception :
    (mta_alert_check envMissing "t0" "tM" "tS" "t1"
        (FetchOutcome.requestError "connection refused")).escaped =
      some "KeyError: EMAIL_CONNECTION_STRING"
    ∧ (mta_alert_check envMissing "t0" "tM" "tS" "t1"
        (FetchOutcome.requestError "connection refused")).escaped ≠ none := by
  exact ⟨rfl, by simp [mta_alert_check, envMissing]⟩

/-- C6 amended: once the connection string is present (so the code
reaches the `try` block of lines 171-203), a fetch error or a parse
error is logged, aborts the tick with no email sent, and is caught; and
no run that reaches the `try` block lets any exception escape, whatever
the fetch outcome. -/
theorem mta_alert_check_fetch_error_safe (env : Env)
    (cs uS nM nS uE m : String)
    (hc : env.email_connection_string = some cs) :
    ((mta_alert_check env uS nM nS uE (FetchOutcome.requestError m)).email
          = none
      ∧ ("Failed to fetch alerts: " ++ m) ∈
          (mta_alert_check env uS nM nS uE (FetchOutcome.requestError m)).logs
      ∧ (mta_alert_check env uS nM nS uE
            (FetchOutcome.requestError m)).escaped = none)
    ∧ ((mta_alert_check env uS nM nS uE (FetchOutcome.parseError m)).email
          = none
      ∧ ("Failed to parse JSON response: " ++ m) ∈
          (mta_alert_check env uS nM nS uE (FetchOutcome.parseError m)).logs
      ∧ (mta_alert_check env uS nM nS uE
            (FetchOutcome.parseError m)).escaped = none)
    ∧ (∀ fetch : FetchOutcome,
        (mta_alert_check env uS nM nS uE fetch).escaped = none) := by
  refine ⟨⟨?_, ?_, ?_⟩, ⟨?_, ?_, ?_⟩, fun fetch => ?_⟩
  · simp [mta_alert_check, hc]
  · simp [mta_alert_check, hc]
  · simp [mta_alert_check, hc]
  · simp [mta_alert_check, hc]
  · simp [mta_alert_check, hc]
  · simp [mta_alert_check, hc]
  · cases fetch <;> simp [mta_alert_check, hc]

/-- C6 amended witness: with a full environment, a concrete fetch error
is logged, sends no email, and nothing escapes. -/
theorem mta_alert_check_fetch_error_safe_witness :
    (mta_alert_check envFull "t0" "tM" "tS" "t1"
        (FetchOutcome.requestError "boom")).email = none
    ∧ ("Failed to fetch alerts: " ++ "boom") ∈
        (mta_alert_check envFull "t0" "tM" "tS" "t1"
          (FetchOutcome.requestError "boom")).logs
    ∧ (mta_alert_check envFull "t0" "tM" "tS" "t1"
        (FetchOutcome.requestError "boom")).escaped = none :=
  (mta_alert_check_fetch_error_safe envFull "cs" "t0" "tM" "tS" "t1" "boom"
      rfl).1

/-- C8: for every nonempty detail list, the message is built and its
plain-text body is, for each detail in sequence order, exactly the three
lines "Alert: {header}", "Active Period: {period}" and the 50-dash
separator, joined by line breaks; and on `[("A","P1"), ("B","P2")]` the
body contains "Alert: A" strictly before "Alert: B". -/
theorem send_alert_email_plaintext (sender recipient : Option String)
    (nowMinute nowSecond : String) (alerts : List (String × String))
    (hne : alerts ≠ []) :
    ((send_alert_email sender recipient nowMinute nowSecond alerts).map
        (fun m => m.content.plainText) =
      some (String.intercalate "\n"
        (alerts.flatMap (fun hp =>
          ["Alert: " ++ hp.1, "Active Period: " ++ hp.2, separatorLine]))))
    ∧ (∃ s₁ s₂ s₃,
        String.intercalate "\n" (plain_text_alerts [("A", "P1"), ("B", "P2")])
          = s₁ ++ ("Alert: " ++ "A") ++ s₂ ++ ("Alert: " ++ "B") ++ s₃) := by
  constructor
  · have he : alerts.isEmpty = false := by simpa using hne
    simp [send_alert_email, he, plain_text_alerts_eq_flatMap]
  · refine ⟨"", "\nActive Period: P1\n" ++ separatorLine ++ "\n",
      "\nActive Period: P2\n" ++ separatorLine, ?_⟩
    decide

/-- C8 witness: the plain-text body of the message built from
`[("A","P1"), ("B","P2")]`. -/
theorem send_alert_email_plaintext_witness :
    (send_alert_email (some "s") (some "r") "tM" "tS"
          [("A", "P1"), ("B", "P2")]).map (fun m => m.content.plainText) =
      some (String.intercalate "\n"
        ([("A", "P1"), ("B", "P2")].flatMap (fun hp =>
          ["Alert: " ++ hp.1, "Active Period: " ++ hp.2, separatorLine]))) :=
  (send_alert_email_plaintext (some "s") (some "r") "tM" "tS"
      [("A", "P1"), ("B", "P2")] (by decide)).1

/-- C9: the filter and the extractor are pure functions of the feed: two
runs over the same feed content, in arbitrary different environments and
at arbitrary different times, compute identical filtered entity lists
and identical extracted detail lists, both equal to the corresponding
pure functions of the feed alone. -/
theorem mta_alert_check_deterministic (env₁ env₂ : Env) (cs₁ cs₂ : String)
    (a₁ b₁ c₁ d₁ a₂ b₂ c₂ d₂ : String) (feed : Feed)
    (h₁ : env₁.email_connection_string = some cs₁)
    (h₂ : env₂.email_connection_string = some cs₂) :
    (mta_alert_check env₁ a₁ b₁ c₁ d₁ (FetchOutcome.success feed)).filtered
        = (mta_alert_check env₂ a₂ b₂ c₂ d₂
            (FetchOutcome.success feed)).filtered
    ∧ (mta_alert_check env₁ a₁ b₁ c₁ d₁ (FetchOutcome.success feed)).details
        = (mta_alert_check env₂ a₂ b₂ c₂ d₂
            (FetchOutcome.success feed)).details
    ∧ (mta_alert_check env₁ a₁ b₁ c₁ d₁ (FetchOutcome.success feed)).filtered
        = filter_seven_train_alerts feed
    ∧ (mta_alert_check env₁ a₁ b₁ c₁ d₁ (FetchOutcome.success feed)).details
        = alert_details feed := by
  refine ⟨?_, ?_, ?_, ?_⟩ <;> simp [mta_alert_check, h₁, h₂]

/-- C9 witness: two runs over `feedTwo` in different environments and at
different times agree on the filtered entities and extracted details. -/
theorem mta_alert_check_deterministic_witness :
    (mta_alert_check envFull "t0" "tM" "tS" "t1"
          (FetchOutcome.success feedTwo)).filtered
        = (mta_alert_check envAlt "u0" "uM" "uS" "u1"
            (FetchOutcome.success feedTwo)).filtered
    ∧ (mta_alert_check envFull "t0" "tM" "tS" "t1"
          (FetchOutcome.success feedTwo)).details
        = (mta_alert_check envAlt "u0" "uM" "uS" "u1"
            (FetchOutcome.success feedTwo)).details :=
  ⟨(mta_alert_check_deterministic envFull envAlt "cs" "cs2" "t0" "tM" "tS"
        "t1" "u0" "uM" "uS" "u1" feedTwo rfl rfl).1,
    (mta_alert_check_deterministic envFull envAlt "cs" "cs2" "t0" "tM" "tS"
        "t1" "u0" "uM" "uS" "u1" feedTwo rfl rfl).2.1⟩

end MtaNotify
